import Mathlib

/-!
Shallow embedding of the voice-assistant state machine in
src/Backend/jarvis.py (class VoiceAssistant).

Audio frames are modelled as lists of integers (the int16 samples of one
chunk).  The external wake-word predictor returns, per frame, either an
exception or an association list from model name to confidence score, in
the iteration order of the Python dict.  Floating-point RMS values are
modelled as rational numbers; since the exact value of the float square
root is not expressible in exact arithmetic, the RMS computation
calculate_rms is kept as an explicit function parameter ranging over all
functions from frames to rationals (the actual float implementation is one
such function), while every piece of control flow that consumes the RMS is
translated from the source verbatim.
-/

namespace Jarvis

/-- One audio chunk: the flattened int16 samples. -/
abbrev Frame := List Int

/-- SAMPLE_RATE = 16000 (jarvis.py line 31). -/
def SAMPLE_RATE : Nat := 16000

/-- CHUNK_SIZE = 1280 (jarvis.py line 32). -/
def CHUNK_SIZE : Nat := 1280

/-- WAKE_WORD_CONFIDENCE_THRESHOLD = 0.99 (line 37). -/
def WAKE_WORD_CONFIDENCE_THRESHOLD : Rat := 99/100

/-- SILENCE_THRESHOLD = 0.005 (line 38). -/
def SILENCE_THRESHOLD : Rat := 5/1000

/-- SILENCE_DURATION_BLOCKS = 25 (line 39). -/
def SILENCE_DURATION_BLOCKS : Nat := 25

/-- KEYWORD_BUFFER_DURATION = 2.0 seconds (line 40). -/
def KEYWORD_BUFFER_DURATION : Rat := 2

/-- ADAPTIVE_THRESHOLD_MULTIPLIER = 1.5 (line 43). -/
def ADAPTIVE_THRESHOLD_MULTIPLIER : Rat := 15/10

/-- MIN_SILENCE_THRESHOLD = 0.002 (line 44). -/
def MIN_SILENCE_THRESHOLD : Rat := 2/1000

/-- MAX_SILENCE_THRESHOLD = 0.02 (line 45). -/
def MAX_SILENCE_THRESHOLD : Rat := 2/100

/-- SILENCE_BUFFER_SIZE = 10 (line 46). -/
def SILENCE_BUFFER_SIZE : Nat := 10

/-- keyword_buffer_max_len = int(KEYWORD_BUFFER_DURATION * SAMPLE_RATE)
(line 169). -/
def keywordBufferMaxLen : Nat :=
  (KEYWORD_BUFFER_DURATION * (SAMPLE_RATE : Rat)).floor.toNat

/--
The mutable attributes of VoiceAssistant that the state machine touches
(jarvis.py lines 50-79).  The wake-word predictor is external; its internal
rolling state is modelled as the list of frames fed to predict since the
last reset, so that a reset call is visible as that list becoming empty.
spawned_jobs counts the processing threads spawned by _stop_recording.
-/
structure VAState where
  audio_queue : List Frame
  recording_buffer : List Frame
  keyword_buffer : List Int
  silence_counter : Nat
  silence_threshold : Rat
  audio_levels_buffer : List Rat
  adaptive_threshold : Rat
  is_listening : Bool
  is_recording : Bool
  is_processing : Bool
  wake_model_frames : List Frame
  spawned_jobs : Nat
deriving DecidableEq

/-- The attribute values set by VoiceAssistant.__init__ (lines 50-79). -/
def initState : VAState where
  audio_queue := []
  recording_buffer := []
  keyword_buffer := []
  silence_counter := 0
  silence_threshold := SILENCE_THRESHOLD
  audio_levels_buffer := []
  adaptive_threshold := SILENCE_THRESHOLD
  is_listening := true
  is_recording := false
  is_processing := false
  wake_model_frames := []
  spawned_jobs := 0

/-- _clear_audio_buffer (lines 348-354): drain the queue until empty. -/
def clearAudioBuffer (s : VAState) : VAState :=
  { s with audio_queue := [] }

/-- _reset_state (lines 356-380): back to listening mode, every buffer and
counter cleared, adaptive threshold back to the default, queue drained,
wake-word model reset. -/
def resetState (s : VAState) : VAState :=
  { s with
    is_listening := true
    is_recording := false
    is_processing := false
    recording_buffer := []
    silence_counter := 0
    keyword_buffer := []
    audio_levels_buffer := []
    adaptive_threshold := SILENCE_THRESHOLD
    audio_queue := []
    wake_model_frames := [] }

/-- _start_recording (lines 222-241).  Note: keyword_buffer is NOT touched
here. -/
def startRecording (s : VAState) : VAState :=
  { s with
    is_recording := true
    is_listening := false
    recording_buffer := []
    silence_counter := 0
    audio_levels_buffer := []
    adaptive_threshold := SILENCE_THRESHOLD
    wake_model_frames := [] }

/-- _stop_recording (lines 243-250): flip to processing and spawn the
processing thread (counted in spawned_jobs). -/
def stopRecording (s : VAState) : VAState :=
  { s with
    is_recording := false
    is_processing := true
    spawned_jobs := s.spawned_jobs + 1 }

/-- Lines 134-138 of update_adaptive_threshold: append the current RMS to
the audio-levels window and pop the oldest entry when the window exceeds
SILENCE_BUFFER_SIZE. -/
def pushedWindow (s : VAState) (current_rms : Rat) : List Rat :=
  let buf0 := s.audio_levels_buffer ++ [current_rms]
  if SILENCE_BUFFER_SIZE < buf0.length then buf0.tail else buf0

/-- update_adaptive_threshold (lines 132-147): append the current RMS,
drop the oldest entry when the window exceeds SILENCE_BUFFER_SIZE, and once
the window has at least 5 samples set the adaptive threshold to the
clamped scaled mean of the window. -/
def updateAdaptiveThreshold (s : VAState) (current_rms : Rat) : VAState :=
  let buf := pushedWindow s current_rms
  if 5 ≤ buf.length then
    let avg_level := buf.sum / (buf.length : Rat)
    { s with
      audio_levels_buffer := buf
      adaptive_threshold :=
        max MIN_SILENCE_THRESHOLD
          (min MAX_SILENCE_THRESHOLD (avg_level * ADAPTIVE_THRESHOLD_MULTIPLIER)) }
  else
    { s with audio_levels_buffer := buf }

/-- detect_silence (lines 149-165): compute the RMS of the chunk, update
the adaptive threshold while recording, and compare the RMS against the
adaptive threshold while recording or the fixed threshold otherwise.
Returns the comparison result together with the updated state. -/
def detectSilence (rms : Frame → Rat) (s : VAState) (audio_chunk : Frame) :
    Bool × VAState :=
  let r := rms audio_chunk
  let s1 := if s.is_recording then updateAdaptiveThreshold s r else s
  let threshold := if s.is_recording then s1.adaptive_threshold else s1.silence_threshold
  (decide (r < threshold), s1)

/-- Auxiliary for the Python substring test: does the second list of
characters begin with the first. -/
def charsStartWith : List Char → List Char → Bool
  | [], _ => true
  | _ :: _, [] => false
  | p :: ps, c :: cs => p == c && charsStartWith ps cs

/-- Auxiliary for the Python substring test: does the first list of
characters occur contiguously inside the second. -/
def charsContain (pat : List Char) : List Char → Bool
  | [] => charsStartWith pat []
  | c :: rest => charsStartWith pat (c :: rest) || charsContain pat rest

/-- The Python expression pat in s on strings (substring containment). -/
def strContains (pat s : String) : Bool :=
  charsContain pat.toList s.toList

/-- The test at line 190: the lowercased model name contains jarvis. -/
def nameMatchesJarvis (model_name : String) : Bool :=
  strContains "jarvis" model_name.toLower

/-- Lines 188-192: scan the prediction mapping in order and take the score
of the first model whose name contains jarvis; 0.0 when none does. -/
def jarvisScore : List (String × Rat) → Rat
  | [] => 0
  | (model_name, score) :: rest =>
    if nameMatchesJarvis model_name then score else jarvisScore rest

/--
The body of one iteration of process_wake_word_detection (lines 171-220)
for a chunk already taken from the queue.  pred is the outcome of the
external call wake_word_model.predict on this chunk: a mapping or a raised
exception; the except-clause at lines 218-220 turns any exception into
_reset_state.  predict is only invoked in the LISTENING branch; the model
consumes the chunk into its internal rolling state.
-/
def handleFrame (rms : Frame → Rat) (audio_chunk : Frame)
    (pred : Except String (List (String × Rat))) (s : VAState) : VAState :=
  if s.is_listening && !s.is_recording && !s.is_processing then
    let kb0 := s.keyword_buffer ++ audio_chunk
    let kb := if keywordBufferMaxLen < kb0.length then
        kb0.drop (kb0.length - keywordBufferMaxLen)
      else kb0
    let s1 := { s with
      keyword_buffer := kb
      wake_model_frames := s.wake_model_frames ++ [audio_chunk] }
    match pred with
    | Except.error _ => resetState s1
    | Except.ok p =>
      if WAKE_WORD_CONFIDENCE_THRESHOLD ≤ jarvisScore p then
        startRecording (clearAudioBuffer s1)
      else s1
  else if s.is_recording && !s.is_processing then
    let s1 := { s with recording_buffer := s.recording_buffer ++ [audio_chunk] }
    let ds := detectSilence rms s1 audio_chunk
    if ds.1 then
      let s2 := { ds.2 with silence_counter := ds.2.silence_counter + 1 }
      if SILENCE_DURATION_BLOCKS ≤ s2.silence_counter then stopRecording s2 else s2
    else
      { ds.2 with silence_counter := 0 }
  else s

/-- One turn of the consumer loop: pop the next queued chunk (if any) and
handle it; on an empty queue the Empty timeout just continues the loop. -/
def consumeStep (rms : Frame → Rat)
    (pred : Except String (List (String × Rat))) (s : VAState) : VAState :=
  match s.audio_queue with
  | [] => s
  | audio_chunk :: rest => handleFrame rms audio_chunk pred { s with audio_queue := rest }

/-- Run the consumer loop over a script of frames with their predictor
outcomes, feeding each frame directly to handleFrame. -/
def runFrames (rms : Frame → Rat) :
    List (Frame × Except String (List (String × Rat))) → VAState → VAState
  | [], s => s
  | (audio_chunk, pred) :: rest, s =>
    runFrames rms rest (handleFrame rms audio_chunk pred s)

/-- External collaborators of the processing pipeline; each call may raise
(Except.error models a Python exception). -/
structure PipelineEnv where
  transcribe : List Rat → Except String String
  abstraction : String → Except String (Option (List String))
  chatbot : String → Except String String
  automationCmd : String → String → Except String String
  ttsSpeak : String → Except String Unit

/-- Observable external actions of the processing pipeline. -/
inductive Event where
  | sttCall : List Rat → Event
  | routeCall : String → Event
  | speak : String → Event
deriving DecidableEq

/-- The normalization full_recording.astype(float32) / 32768.0 at
line 262 (and line 129 inside calculate_rms). -/
def normalizedSamples (samples : List Int) : List Rat :=
  samples.map (fun x => (x : Rat) / 32768)

/-- _speak_response (lines 339-347): print and stream TTS; a TTS exception
is caught and swallowed.  The speak attempt is the observable event. -/
def speakResponse (env : PipelineEnv) (response : String) : List Event :=
  match env.ttsSpeak response with
  | Except.ok _ => [Event.speak response]
  | Except.error _ => [Event.speak response]

/-- SYSTEM_COMMANDS (line 308). -/
def SYSTEM_COMMANDS : List String := ["system", "play", "open", "close"]

/-- The three search command markers at line 318. -/
def SEARCH_COMMANDS : List String :=
  ["google search", "youtube search", "spotify search"]

/-- The fall-back path response = get_live_chatbot_response(text) followed
by _speak_response(response) (lines 298-300 and 327-330). -/
def chatbotSpeak (env : PipelineEnv) (text : String) :
    Except String (List Event) :=
  match env.chatbot text with
  | Except.error e => Except.error e
  | Except.ok response => Except.ok (speakResponse env response)

/-- The for-loop over abstraction_result (lines 304-325): the accumulated
response is overwritten by a system-automation result without leaving the
loop, while a search or general command answers via the chatbot and breaks
out of the loop. -/
def commandLoop (env : PipelineEnv) (text : String) :
    List String → Option String → Except String (Option String)
  | [], response => Except.ok response
  | command :: rest, response =>
    let c := command.toLower.trim
    let afterSystem : Except String (Option String) :=
      if SYSTEM_COMMANDS.any (fun cmd => c.startsWith cmd) then
        match env.automationCmd c text with
        | Except.error e => Except.error e
        | Except.ok r => Except.ok (some r)
      else Except.ok response
    match afterSystem with
    | Except.error e => Except.error e
    | Except.ok response1 =>
      if SEARCH_COMMANDS.any (fun cmd => strContains cmd c) then
        match env.chatbot text with
        | Except.error e => Except.error e
        | Except.ok r => Except.ok (some r)
      else if c.startsWith "general" then
        match env.chatbot text with
        | Except.error e => Except.error e
        | Except.ok r => Except.ok (some r)
      else commandLoop env text rest response1

/-- _process_command (lines 288-337): classify via the abstraction call,
run the command loop, fall back to the chatbot when no response was
produced (None or empty string are both falsy), speak the result; any
exception is caught and answered with a spoken apology; the finally-clause
always runs _reset_state. -/
def processCommand (env : PipelineEnv) (text : String) (s : VAState) :
    VAState × List Event :=
  let inner : Except String (List Event) :=
    match env.abstraction text with
    | Except.error e => Except.error e
    | Except.ok none => chatbotSpeak env text
    | Except.ok (some cmds) =>
      if cmds.isEmpty then chatbotSpeak env text
      else
        match commandLoop env text cmds none with
        | Except.error e => Except.error e
        | Except.ok none => chatbotSpeak env text
        | Except.ok (some r) =>
          if r = "" then chatbotSpeak env text
          else Except.ok (speakResponse env r)
  match inner with
  | Except.ok evs => (resetState s, Event.routeCall text :: evs)
  | Except.error _ =>
    (resetState s,
      Event.routeCall text ::
        speakResponse env "Sorry, I encountered an error processing your request.")

/-- The try/except body of _process_recording (lines 252-283): an empty
recording buffer or an empty transcription resets directly; an exception
from transcription is caught and resets; otherwise the text goes to
_process_command. -/
def processRecordingBody (env : PipelineEnv) (s : VAState) :
    VAState × List Event :=
  if s.recording_buffer.isEmpty then (resetState s, [])
  else
    let samples := normalizedSamples s.recording_buffer.flatten
    match env.transcribe samples with
    | Except.error _ => (resetState s, [Event.sttCall samples])
    | Except.ok raw =>
      let transcribed_text := raw.trim
      if transcribed_text = "" then (resetState s, [Event.sttCall samples])
      else
        let pc := processCommand env transcribed_text s
        (pc.1, Event.sttCall samples :: pc.2)

/-- _process_recording (lines 252-286) including the finally-clause: reset
once more only when the body left is_processing set. -/
def processRecording (env : PipelineEnv) (s : VAState) : VAState × List Event :=
  let b := processRecordingBody env s
  (if b.1.is_processing then resetState b.1 else b.1, b.2)

/-- A concrete pipeline environment used for evaluating the embedding on
closed inputs: transcription returns the empty string, classification
returns none, chat and automation return fixed strings, TTS succeeds. -/
def emptyTranscriberEnv : PipelineEnv where
  transcribe := fun _ => Except.ok ""
  abstraction := fun _ => Except.ok none
  chatbot := fun _ => Except.ok "hello"
  automationCmd := fun _ _ => Except.ok "done"
  ttsSpeak := fun _ => Except.ok ()

/-- A concrete RECORDING state: just after _start_recording, with the
silence counter already at 24 consecutive silent frames. -/
def recState24 : VAState :=
  { startRecording initState with silence_counter := 24 }

/-- A concrete PROCESSING state with a residual queued frame: recording
started and stopped, one processing job spawned. -/
def procState : VAState :=
  { stopRecording (startRecording initState) with audio_queue := [[7]] }

/-- The LISTENING configuration of the three state booleans. -/
def ListeningState (s : VAState) : Prop :=
  s.is_listening = true ∧ s.is_recording = false ∧ s.is_processing = false

/-- Exactly one of the three state booleans is set. -/
def triExclusive (s : VAState) : Bool :=
  (s.is_listening && !s.is_recording && !s.is_processing) ||
  (!s.is_listening && s.is_recording && !s.is_processing) ||
  (!s.is_listening && !s.is_recording && s.is_processing)

/-- The audio-levels window stored by update_adaptive_threshold is the
pushed window in either branch. -/
theorem updateAdaptiveThreshold_buffer (s : VAState) (r : Rat) :
    (updateAdaptiveThreshold s r).audio_levels_buffer = pushedWindow s r := by
  unfold updateAdaptiveThreshold
  dsimp only
  split <;> rfl

/-- With at least 5 samples in the pushed window, the adaptive threshold
becomes the clamped scaled mean of the window. -/
theorem updateAdaptiveThreshold_big (s : VAState) (r : Rat)
    (h : 5 ≤ (pushedWindow s r).length) :
    (updateAdaptiveThreshold s r).adaptive_threshold =
      max MIN_SILENCE_THRESHOLD (min MAX_SILENCE_THRESHOLD
        ((pushedWindow s r).sum / ((pushedWindow s r).length : Rat) *
          ADAPTIVE_THRESHOLD_MULTIPLIER)) := by
  unfold updateAdaptiveThreshold
  dsimp only
  rw [if_pos h]

/-- With fewer than 5 samples in the pushed window, the adaptive threshold
is left unchanged. -/
theorem updateAdaptiveThreshold_small (s : VAState) (r : Rat)
    (h : (pushedWindow s r).length < 5) :
    (updateAdaptiveThreshold s r).adaptive_threshold = s.adaptive_threshold := by
  unfold updateAdaptiveThreshold
  dsimp only
  rw [if_neg (by omega)]

/-- update_adaptive_threshold touches only the audio-levels window and the
adaptive threshold. -/
theorem updateAdaptiveThreshold_other (s : VAState) (r : Rat) :
    (updateAdaptiveThreshold s r).is_listening = s.is_listening ∧
    (updateAdaptiveThreshold s r).is_recording = s.is_recording ∧
    (updateAdaptiveThreshold s r).is_processing = s.is_processing ∧
    (updateAdaptiveThreshold s r).silence_counter = s.silence_counter ∧
    (updateAdaptiveThreshold s r).recording_buffer = s.recording_buffer ∧
    (updateAdaptiveThreshold s r).keyword_buffer = s.keyword_buffer ∧
    (updateAdaptiveThreshold s r).silence_threshold = s.silence_threshold ∧
    (updateAdaptiveThreshold s r).audio_queue = s.audio_queue ∧
    (updateAdaptiveThreshold s r).wake_model_frames = s.wake_model_frames ∧
    (updateAdaptiveThreshold s r).spawned_jobs = s.spawned_jobs := by
  unfold updateAdaptiveThreshold
  dsimp only
  split <;> simp

/-- A window within the SILENCE_BUFFER_SIZE bound stays within the bound
after a push. -/
theorem pushedWindow_length (s : VAState) (r : Rat)
    (h : s.audio_levels_buffer.length ≤ SILENCE_BUFFER_SIZE) :
    (pushedWindow s r).length ≤ SILENCE_BUFFER_SIZE := by
  unfold pushedWindow
  dsimp only
  split
  · next hgt =>
    rw [List.length_tail]
    simp at hgt ⊢
    omega
  · next hle =>
    simp at hle ⊢
    omega

/-- detect_silence while recording: the state is updated by
update_adaptive_threshold and the RMS is compared against the (updated)
adaptive threshold. -/
theorem detectSilence_recording (rms : Frame → Rat) (s : VAState)
    (audio_chunk : Frame) (h : s.is_recording = true) :
    detectSilence rms s audio_chunk =
      (decide (rms audio_chunk <
          (updateAdaptiveThreshold s (rms audio_chunk)).adaptive_threshold),
        updateAdaptiveThreshold s (rms audio_chunk)) := by
  unfold detectSilence
  simp [h]

/-- detect_silence outside recording: the state is untouched and the RMS
is compared against the fixed threshold attribute. -/
theorem detectSilence_notRecording (rms : Frame → Rat) (s : VAState)
    (audio_chunk : Frame) (h : s.is_recording = false) :
    detectSilence rms s audio_chunk =
      (decide (rms audio_chunk < s.silence_threshold), s) := by
  unfold detectSilence
  simp [h]

/-- handleFrame in LISTENING on a frame whose score stays below the
threshold: the keyword buffer rolls, the predictor consumes the frame, and
nothing else changes. -/
theorem handleFrame_listening_low (rms : Frame → Rat) (c : Frame)
    (p : List (String × Rat)) (s : VAState)
    (hL : ListeningState s)
    (hlow : jarvisScore p < WAKE_WORD_CONFIDENCE_THRESHOLD) :
    handleFrame rms c (Except.ok p) s =
      { s with
        keyword_buffer :=
          (if keywordBufferMaxLen < (s.keyword_buffer ++ c).length then
            (s.keyword_buffer ++ c).drop
              ((s.keyword_buffer ++ c).length - keywordBufferMaxLen)
          else s.keyword_buffer ++ c)
        wake_model_frames := s.wake_model_frames ++ [c] } := by
  obtain ⟨h1, h2, h3⟩ := hL
  simp [handleFrame, h1, h2, h3, not_le.mpr hlow]

/-- Appending the same list on the right preserves the suffix relation. -/
theorem isSuffix_append_same {α : Type} {l₁ l₂ : List α} (t : List α)
    (h : l₁ <:+ l₂) : l₁ ++ t <:+ l₂ ++ t := by
  obtain ⟨u, rfl⟩ := h
  exact ⟨u, by simp⟩

/-- While PROCESSING both guards of the consumer body fail: the frame is
discarded and the state left unchanged. -/
theorem handleFrame_processing (rms : Frame → Rat) (audio_chunk : Frame)
    (pred : Except String (List (String × Rat))) (s : VAState)
    (h : s.is_processing = true) : handleFrame rms audio_chunk pred s = s := by
  simp [handleFrame, h]

/-- A predictor exception in LISTENING lands in the except-clause, which
resets the state; since the reset wipes the partially rolled keyword
buffer and predictor state, the result is exactly the reset of the
incoming state. -/
theorem handleFrame_error_listening (rms : Frame → Rat) (audio_chunk : Frame)
    (e : String) (s : VAState) (hL : ListeningState s) :
    handleFrame rms audio_chunk (Except.error e) s = resetState s := by
  obtain ⟨h1, h2, h3⟩ := hL
  simp [handleFrame, h1, h2, h3, resetState]

/-- _process_command always ends in the reset state: its finally-clause
runs _reset_state on the success path and on the except path alike. -/
theorem processCommand_resets (env : PipelineEnv) (text : String) (t : VAState) :
    (processCommand env text t).1 = resetState t := by
  unfold processCommand
  dsimp only
  split <;> rfl

/-- _process_recording always ends in the reset state: on the clean path
and on every error or short-circuit path alike. -/
theorem processRecording_resets (env : PipelineEnv) (t : VAState) :
    (processRecording env t).1 = resetState t := by
  have hbody : (processRecordingBody env t).1 = resetState t := by
    unfold processRecordingBody
    dsimp only
    split
    · rfl
    · split
      · rfl
      · split
        · rfl
        · exact processCommand_resets env _ t
  unfold processRecording
  dsimp only
  rw [hbody]
  simp [resetState]

/-- detect_silence never touches the state flags, the silence counter, the
recording buffer or the spawn count. -/
theorem detectSilence_flags (rms : Frame → Rat) (s : VAState) (audio_chunk : Frame) :
    (detectSilence rms s audio_chunk).2.is_listening = s.is_listening ∧
    (detectSilence rms s audio_chunk).2.is_recording = s.is_recording ∧
    (detectSilence rms s audio_chunk).2.is_processing = s.is_processing ∧
    (detectSilence rms s audio_chunk).2.silence_counter = s.silence_counter ∧
    (detectSilence rms s audio_chunk).2.recording_buffer = s.recording_buffer ∧
    (detectSilence rms s audio_chunk).2.spawned_jobs = s.spawned_jobs := by
  unfold detectSilence
  dsimp only
  by_cases h : s.is_recording = true
  · simp only [h, if_true]
    have ho := updateAdaptiveThreshold_other s (rms audio_chunk)
    exact ⟨ho.1, ho.2.1.trans h, ho.2.2.1, ho.2.2.2.1, ho.2.2.2.2.1,
      ho.2.2.2.2.2.2.2.2.2⟩
  · simp [h]

/-- The RECORDING branch of the consumer body, characterized in terms of
detect_silence on the state with the frame already appended. -/
theorem handleFrame_recording (rms : Frame → Rat) (audio_chunk : Frame)
    (pred : Except String (List (String × Rat))) (s : VAState)
    (hrec : s.is_recording = true) (hproc : s.is_processing = false) :
    handleFrame rms audio_chunk pred s =
      (let ds := detectSilence rms
        { s with recording_buffer := s.recording_buffer ++ [audio_chunk] } audio_chunk
       if ds.1 then
         if SILENCE_DURATION_BLOCKS ≤ ds.2.silence_counter + 1 then
           stopRecording { ds.2 with silence_counter := ds.2.silence_counter + 1 }
         else { ds.2 with silence_counter := ds.2.silence_counter + 1 }
       else { ds.2 with silence_counter := 0 }) := by
  unfold handleFrame
  rw [if_neg (by simp [hrec]), if_pos (by simp [hrec, hproc])]

/-- In the RECORDING branch the listening flag is preserved and the result
is either still recording or has moved to processing. -/
theorem handleFrame_recording_flags (rms : Frame → Rat) (audio_chunk : Frame)
    (pred : Except String (List (String × Rat))) (s : VAState)
    (hrec : s.is_recording = true) (hproc : s.is_processing = false) :
    (handleFrame rms audio_chunk pred s).is_listening = s.is_listening ∧
    (((handleFrame rms audio_chunk pred s).is_recording = true ∧
        (handleFrame rms audio_chunk pred s).is_processing = false) ∨
      ((handleFrame rms audio_chunk pred s).is_recording = false ∧
        (handleFrame rms audio_chunk pred s).is_processing = true)) := by
  rw [handleFrame_recording rms audio_chunk pred s hrec hproc]
  dsimp only
  have hf := detectSilence_flags rms
    { s with recording_buffer := s.recording_buffer ++ [audio_chunk] } audio_chunk
  split
  · split
    · exact ⟨hf.1, Or.inr ⟨rfl, rfl⟩⟩
    · refine ⟨hf.1, Or.inl ⟨?_, ?_⟩⟩
      · rw [show (({ (detectSilence rms
            { s with recording_buffer := s.recording_buffer ++ [audio_chunk] }
            audio_chunk).2 with silence_counter := (detectSilence rms
            { s with recording_buffer := s.recording_buffer ++ [audio_chunk] }
            audio_chunk).2.silence_counter + 1 } : VAState)).is_recording =
          (detectSilence rms
            { s with recording_buffer := s.recording_buffer ++ [audio_chunk] }
            audio_chunk).2.is_recording from rfl, hf.2.1]
        exact hrec
      · rw [show (({ (detectSilence rms
            { s with recording_buffer := s.recording_buffer ++ [audio_chunk] }
            audio_chunk).2 with silence_counter := (detectSilence rms
            { s with recording_buffer := s.recording_buffer ++ [audio_chunk] }
            audio_chunk).2.silence_counter + 1 } : VAState)).is_processing =
          (detectSilence rms
            { s with recording_buffer := s.recording_buffer ++ [audio_chunk] }
            audio_chunk).2.is_processing from rfl, hf.2.2.1]
        exact hproc
  · refine ⟨hf.1, Or.inl ⟨?_, ?_⟩⟩
    · rw [show (({ (detectSilence rms
          { s with recording_buffer := s.recording_buffer ++ [audio_chunk] }
          audio_chunk).2 with silence_counter := 0 } : VAState)).is_recording =
        (detectSilence rms
          { s with recording_buffer := s.recording_buffer ++ [audio_chunk] }
          audio_chunk).2.is_recording from rfl, hf.2.1]
      exact hrec
    · rw [show (({ (detectSilence rms
          { s with recording_buffer := s.recording_buffer ++ [audio_chunk] }
          audio_chunk).2 with silence_counter := 0 } : VAState)).is_processing =
        (detectSilence rms
          { s with recording_buffer := s.recording_buffer ++ [audio_chunk] }
          audio_chunk).2.is_processing from rfl, hf.2.2.1]
      exact hproc

/-- _reset_state always yields a state with exactly one flag set. -/
theorem triExclusive_resetState (t : VAState) : triExclusive (resetState t) = true := rfl

/-- _start_recording from a non-processing state yields exactly one flag. -/
theorem triExclusive_startRecording (t : VAState) (hp : t.is_processing = false) :
    triExclusive (startRecording t) = true := by
  simp [triExclusive, startRecording, hp]

/-- _stop_recording from a non-listening state yields exactly one flag. -/
theorem triExclusive_stopRecording (t : VAState) (hl : t.is_listening = false) :
    triExclusive (stopRecording t) = true := by
  simp [triExclusive, stopRecording, hl]

/-- Claim C8: the reset path is idempotent: after one call to _reset_state,
and equally after a second call, the keyword buffer, recording buffer and
audio-levels window are empty, the silence counter is zero, the adaptive
threshold equals the default SILENCE_THRESHOLD, and the state is
LISTENING; a second reset changes nothing. -/
theorem c8_reset_idempotent (s : VAState) :
    resetState (resetState s) = resetState s ∧
    (resetState s).keyword_buffer = [] ∧
    (resetState s).recording_buffer = [] ∧
    (resetState s).silence_counter = 0 ∧
    (resetState s).adaptive_threshold = SILENCE_THRESHOLD ∧
    (resetState s).audio_levels_buffer = [] ∧
    (resetState s).is_listening = true ∧
    (resetState s).is_recording = false ∧
    (resetState s).is_processing = false ∧
    (resetState (resetState s)).keyword_buffer = [] ∧
    (resetState (resetState s)).is_listening = true := by
  cases s
  simp [resetState]

/-- Claim C5: while PROCESSING, a frame handled by the consumer loop
changes nothing (it is appended to no buffer and evaluated for nothing),
one consumer turn merely pops the frame off the queue and discards it, and
in particular no recording can begin and no further processing job can be
spawned until the state is reset. -/
theorem c5_processing_discards (rms : Frame → Rat) (audio_chunk : Frame)
    (pred : Except String (List (String × Rat))) (s : VAState)
    (h : s.is_processing = true) :
    handleFrame rms audio_chunk pred s = s ∧
    consumeStep rms pred s = { s with audio_queue := s.audio_queue.tail } ∧
    (handleFrame rms audio_chunk pred s).is_recording = s.is_recording ∧
    (handleFrame rms audio_chunk pred s).spawned_jobs = s.spawned_jobs := by
  have hframe : ∀ t : VAState, t.is_processing = true →
      handleFrame rms audio_chunk pred t = t := by
    intro t ht
    simp [handleFrame, ht]
  refine ⟨hframe s h, ?_, by rw [hframe s h], by rw [hframe s h]⟩
  unfold consumeStep
  rcases hq : s.audio_queue with _ | ⟨c, rest⟩
  · cases s
    simp_all
  · show handleFrame rms c pred { s with audio_queue := rest } =
      { s with audio_queue := (c :: rest).tail }
    simp [handleFrame, h]

/-- Witness for c5_processing_discards: a concrete PROCESSING state with a
queued frame; even a perfect-score jarvis prediction is ignored. -/
theorem c5_processing_discards_witness :
    handleFrame (fun _ => 0) [3] (Except.ok [("jarvis", 1)]) procState
        = procState ∧
    consumeStep (fun _ => 0) (Except.ok [("jarvis", 1)]) procState =
      { procState with audio_queue := procState.audio_queue.tail } ∧
    (handleFrame (fun _ => 0) [3] (Except.ok [("jarvis", 1)])
        procState).is_recording = procState.is_recording ∧
    (handleFrame (fun _ => 0) [3] (Except.ok [("jarvis", 1)])
        procState).spawned_jobs = procState.spawned_jobs :=
  c5_processing_discards (fun _ => 0) [3] (Except.ok [("jarvis", 1)])
    procState rfl

/-- Claim C1 counterexample: in LISTENING with an empty keyword buffer,
a frame whose predictor score is 1 (at or above the 0.99 threshold)
transitions the machine to RECORDING, yet the keyword buffer is NOT empty
immediately after the transition: it still holds the rolling window
(_start_recording never clears keyword_buffer; only _reset_state does). -/
theorem c1_keyword_buffer_not_cleared :
    (handleFrame (fun _ => 0) [1] (Except.ok [("jarvis", 1)]) initState).is_recording
        = true ∧
    ¬ (handleFrame (fun _ => 0) [1] (Except.ok [("jarvis", 1)]) initState).keyword_buffer
        = [] := by
  with_unfolding_all decide

/-- Claim C1 (amended): while in LISTENING, when the score for the target
keyword is at least WAKE_WORD_CONFIDENCE_THRESHOLD, the machine clears the
audio input queue, resets the wake-word predictor internal state, and
transitions to RECORDING with an empty recording buffer, zero silence
counter and default adaptive threshold; the KeywordBuffer is NOT cleared
at the transition — it keeps the rolling window including the triggering
frame (it is cleared only by the later _reset_state). -/
theorem c1_wake_trigger (rms : Frame → Rat) (audio_chunk : Frame)
    (p : List (String × Rat)) (s : VAState)
    (hL : ListeningState s)
    (hscore : WAKE_WORD_CONFIDENCE_THRESHOLD ≤ jarvisScore p) :
    let result := handleFrame rms audio_chunk (Except.ok p) s
    result.audio_queue = [] ∧
    result.wake_model_frames = [] ∧
    result.is_recording = true ∧
    result.is_listening = false ∧
    result.is_processing = false ∧
    result.recording_buffer = [] ∧
    result.silence_counter = 0 ∧
    result.adaptive_threshold = SILENCE_THRESHOLD ∧
    result.keyword_buffer =
      (if keywordBufferMaxLen < (s.keyword_buffer ++ audio_chunk).length then
        (s.keyword_buffer ++ audio_chunk).drop
          ((s.keyword_buffer ++ audio_chunk).length - keywordBufferMaxLen)
      else s.keyword_buffer ++ audio_chunk) := by
  obtain ⟨h1, h2, h3⟩ := hL
  simp [handleFrame, h1, h2, h3, hscore, startRecording, clearAudioBuffer]

/-- Witness for c1_wake_trigger: a concrete LISTENING state with a queued
residual frame, triggered by a matching model named Jarvis v2 with score
0.995. -/
theorem c1_wake_trigger_witness :
    let result := handleFrame (fun _ => 0) [2]
      (Except.ok [("Jarvis v2", (995 : Rat)/1000)])
      { initState with audio_queue := [[5]], keyword_buffer := [7] }
    result.audio_queue = [] ∧
    result.wake_model_frames = [] ∧
    result.is_recording = true ∧
    result.is_listening = false ∧
    result.is_processing = false ∧
    result.recording_buffer = [] ∧
    result.silence_counter = 0 ∧
    result.adaptive_threshold = SILENCE_THRESHOLD ∧
    result.keyword_buffer =
      (if keywordBufferMaxLen < (([7] : List Int) ++ [2]).length then
        (([7] : List Int) ++ [2]).drop ((([7] : List Int) ++ [2]).length - keywordBufferMaxLen)
      else ([7] : List Int) ++ [2]) :=
  c1_wake_trigger (fun _ => 0) [2] [("Jarvis v2", (995 : Rat)/1000)]
    { initState with audio_queue := [[5]], keyword_buffer := [7] }
    ⟨rfl, rfl, rfl⟩ (by with_unfolding_all decide)

/-- Claim C10: the wake-word score used by the trigger decision is the
score of the first entry of the predictor mapping whose model name
contains jarvis case-insensitively; when no entry matches, the score is
taken as 0.0 and the frame leaves the machine in LISTENING no matter how
high the other scores are. -/
theorem c10_jarvis_score (pre post p2 : List (String × Rat))
    (model_name : String) (score : Rat)
    (rms : Frame → Rat) (audio_chunk : Frame) (s : VAState)
    (hpre : ∀ e ∈ pre, nameMatchesJarvis e.1 = false)
    (hname : nameMatchesJarvis model_name = true)
    (hnone : ∀ e ∈ p2, nameMatchesJarvis e.1 = false)
    (hL : ListeningState s) :
    jarvisScore (pre ++ (model_name, score) :: post) = score ∧
    jarvisScore p2 = 0 ∧
    ListeningState (handleFrame rms audio_chunk (Except.ok p2) s) := by
  have hzero : ∀ q : List (String × Rat),
      (∀ e ∈ q, nameMatchesJarvis e.1 = false) → jarvisScore q = 0 := by
    intro q
    induction q with
    | nil => intro _; rfl
    | cons e rest ih =>
      intro hq
      obtain ⟨n, sc⟩ := e
      have hn : nameMatchesJarvis n = false := hq (n, sc) (by simp)
      simp only [jarvisScore, hn, Bool.false_eq_true, if_false]
      exact ih (fun x hx => hq x (List.mem_cons_of_mem _ hx))
  refine ⟨?_, hzero p2 hnone, ?_⟩
  · induction pre with
    | nil => simp [jarvisScore, hname]
    | cons e rest ih =>
      obtain ⟨n, sc⟩ := e
      have hn : nameMatchesJarvis n = false := hpre (n, sc) (by simp)
      simp only [List.cons_append, jarvisScore, hn, Bool.false_eq_true, if_false]
      exact ih (fun x hx => hpre x (List.mem_cons_of_mem _ hx))
  · obtain ⟨h1, h2, h3⟩ := hL
    have hlow : ¬ WAKE_WORD_CONFIDENCE_THRESHOLD ≤ jarvisScore p2 := by
      rw [hzero p2 hnone]
      norm_num [WAKE_WORD_CONFIDENCE_THRESHOLD]
    simp [handleFrame, h1, h2, h3, hlow, ListeningState]

/-- Witness for c10_jarvis_score: the mapping lists alexa first with a
huge score; hey_jarvis matches; a mapping with no matching name yields
score 0 and leaves a concrete LISTENING state listening. -/
theorem c10_jarvis_score_witness :
    jarvisScore ([("alexa", 2)] ++ ("hey_jarvis", (1 : Rat)/2) :: []) = (1 : Rat)/2 ∧
    jarvisScore [("alexa", (100 : Rat))] = 0 ∧
    ListeningState (handleFrame (fun _ => 0) [3]
      (Except.ok [("alexa", (100 : Rat))]) initState) :=
  c10_jarvis_score [("alexa", 2)] [] [("alexa", (100 : Rat))] "hey_jarvis" ((1 : Rat)/2)
    (fun _ => 0) [3] initState
    (by with_unfolding_all decide) (by with_unfolding_all decide)
    (by with_unfolding_all decide) ⟨rfl, rfl, rfl⟩

/-- Claim C4: while recording, each frame's RMS is pushed into a window
bounded to SILENCE_BUFFER_SIZE entries; once the window holds at least 5
samples the threshold in effect equals the window mean scaled by
ADAPTIVE_THRESHOLD_MULTIPLIER and clamped between MIN_SILENCE_THRESHOLD
and MAX_SILENCE_THRESHOLD; with fewer than 5 samples the adaptive
threshold is left at its prior value — the default SILENCE_THRESHOLD at
the start of a recording — and outside recording the fixed default
attribute is used; detect_silence returns true exactly when the RMS is
strictly below the threshold in effect. -/
theorem c4_adaptive_silence (rms : Frame → Rat) (s : VAState)
    (audio_chunk : Frame) :
    let r := rms audio_chunk
    let u := updateAdaptiveThreshold s r
    (s.is_recording = true →
      (detectSilence rms s audio_chunk).2 = u ∧
      u.audio_levels_buffer = pushedWindow s r ∧
      (s.audio_levels_buffer.length ≤ SILENCE_BUFFER_SIZE →
        u.audio_levels_buffer.length ≤ SILENCE_BUFFER_SIZE) ∧
      (5 ≤ (pushedWindow s r).length →
        u.adaptive_threshold =
          max MIN_SILENCE_THRESHOLD (min MAX_SILENCE_THRESHOLD
            ((pushedWindow s r).sum / ((pushedWindow s r).length : Rat) *
              ADAPTIVE_THRESHOLD_MULTIPLIER))) ∧
      ((pushedWindow s r).length < 5 →
        u.adaptive_threshold = s.adaptive_threshold) ∧
      ((detectSilence rms s audio_chunk).1 = true ↔ r < u.adaptive_threshold)) ∧
    (s.is_recording = false →
      (detectSilence rms s audio_chunk).2 = s ∧
      ((detectSilence rms s audio_chunk).1 = true ↔ r < s.silence_threshold)) ∧
    (s.is_recording = true → s.adaptive_threshold = SILENCE_THRESHOLD →
      (pushedWindow s r).length < 5 →
      ((detectSilence rms s audio_chunk).1 = true ↔ r < SILENCE_THRESHOLD)) := by
  intro r u
  have hsmall : ∀ hrec : s.is_recording = true, (pushedWindow s r).length < 5 →
      ((detectSilence rms s audio_chunk).1 = true ↔ r < s.adaptive_threshold) := by
    intro hrec hlt
    rw [detectSilence_recording rms s audio_chunk hrec]
    simp [updateAdaptiveThreshold_small s r hlt]
  refine ⟨fun hrec => ?_, fun hnot => ?_, fun hrec hdef hlt => ?_⟩
  · refine ⟨?_, updateAdaptiveThreshold_buffer s r, ?_, ?_, ?_, ?_⟩
    · rw [detectSilence_recording rms s audio_chunk hrec]
    · intro hb
      rw [updateAdaptiveThreshold_buffer s r]
      exact pushedWindow_length s r hb
    · exact fun h5 => updateAdaptiveThreshold_big s r h5
    · exact fun hlt => updateAdaptiveThreshold_small s r hlt
    · rw [detectSilence_recording rms s audio_chunk hrec]
      simp
  · rw [detectSilence_notRecording rms s audio_chunk hnot]
    simp
  · rw [hsmall hrec hlt, hdef]

/-- Witness for c4_adaptive_silence: a recording state whose window
already holds four equal RMS values, fed a fifth frame. -/
theorem c4_adaptive_silence_witness :
    let r := (fun _ : Frame => (1 : Rat)/100) [0]
    let u := updateAdaptiveThreshold
      { startRecording initState with
          audio_levels_buffer := [1/100, 1/100, 1/100, 1/100] } r
    (({ startRecording initState with
          audio_levels_buffer := [1/100, 1/100, 1/100, 1/100] } : VAState).is_recording
        = true →
      (detectSilence (fun _ => (1 : Rat)/100)
          { startRecording initState with
              audio_levels_buffer := [1/100, 1/100, 1/100, 1/100] } [0]).2 = u ∧
      u.audio_levels_buffer = pushedWindow
        { startRecording initState with
            audio_levels_buffer := [1/100, 1/100, 1/100, 1/100] } r ∧
      (({ startRecording initState with
            audio_levels_buffer := [1/100, 1/100, 1/100, 1/100] } :
          VAState).audio_levels_buffer.length ≤ SILENCE_BUFFER_SIZE →
        u.audio_levels_buffer.length ≤ SILENCE_BUFFER_SIZE) ∧
      (5 ≤ (pushedWindow
          { startRecording initState with
              audio_levels_buffer := [1/100, 1/100, 1/100, 1/100] } r).length →
        u.adaptive_threshold =
          max MIN_SILENCE_THRESHOLD (min MAX_SILENCE_THRESHOLD
            ((pushedWindow
                { startRecording initState with
                    audio_levels_buffer := [1/100, 1/100, 1/100, 1/100] } r).sum /
              ((pushedWindow
                { startRecording initState with
                    audio_levels_buffer := [1/100, 1/100, 1/100, 1/100] } r).length : Rat) *
              ADAPTIVE_THRESHOLD_MULTIPLIER))) ∧
      ((pushedWindow
          { startRecording initState with
              audio_levels_buffer := [1/100, 1/100, 1/100, 1/100] } r).length < 5 →
        u.adaptive_threshold =
          ({ startRecording initState with
              audio_levels_buffer := [1/100, 1/100, 1/100, 1/100] } :
            VAState).adaptive_threshold) ∧
      ((detectSilence (fun _ => (1 : Rat)/100)
          { startRecording initState with
              audio_levels_buffer := [1/100, 1/100, 1/100, 1/100] } [0]).1 = true ↔
        r < u.adaptive_threshold)) ∧
    (({ startRecording initState with
          audio_levels_buffer := [1/100, 1/100, 1/100, 1/100] } : VAState).is_recording
        = false →
      (detectSilence (fun _ => (1 : Rat)/100)
          { startRecording initState with
              audio_levels_buffer := [1/100, 1/100, 1/100, 1/100] } [0]).2 =
        { startRecording initState with
            audio_levels_buffer := [1/100, 1/100, 1/100, 1/100] } ∧
      ((detectSilence (fun _ => (1 : Rat)/100)
          { startRecording initState with
              audio_levels_buffer := [1/100, 1/100, 1/100, 1/100] } [0]).1 = true ↔
        r < ({ startRecording initState with
            audio_levels_buffer := [1/100, 1/100, 1/100, 1/100] } :
          VAState).silence_threshold)) ∧
    (({ startRecording initState with
          audio_levels_buffer := [1/100, 1/100, 1/100, 1/100] } : VAState).is_recording
        = true →
      ({ startRecording initState with
          audio_levels_buffer := [1/100, 1/100, 1/100, 1/100] } :
        VAState).adaptive_threshold = SILENCE_THRESHOLD →
      (pushedWindow
          { startRecording initState with
              audio_levels_buffer := [1/100, 1/100, 1/100, 1/100] } r).length < 5 →
      ((detectSilence (fun _ => (1 : Rat)/100)
          { startRecording initState with
              audio_levels_buffer := [1/100, 1/100, 1/100, 1/100] } [0]).1 = true ↔
        r < SILENCE_THRESHOLD)) :=
  c4_adaptive_silence (fun _ => (1 : Rat)/100)
    { startRecording initState with
        audio_levels_buffer := [1/100, 1/100, 1/100, 1/100] } [0]

/-- Claim C3: for every script of frames delivered in LISTENING whose
wake-word scores all stay below the confidence threshold, the machine
stays in LISTENING, the keyword buffer length never exceeds
KEYWORD_BUFFER_DURATION * SAMPLE_RATE samples, and its content is always a
suffix of the samples fed so far (oldest samples are evicted first). -/
theorem c3_listening_rolling (rms : Frame → Rat)
    (script : List (Frame × Except String (List (String × Rat))))
    (s : VAState)
    (hL : ListeningState s)
    (hlen : s.keyword_buffer.length ≤ keywordBufferMaxLen)
    (hscores : ∀ ip ∈ script, ∃ p, ip.2 = Except.ok p ∧
        jarvisScore p < WAKE_WORD_CONFIDENCE_THRESHOLD) :
    ListeningState (runFrames rms script s) ∧
    (runFrames rms script s).keyword_buffer.length ≤ keywordBufferMaxLen ∧
    (runFrames rms script s).keyword_buffer <:+
      s.keyword_buffer ++ (script.map (fun ip => ip.1)).flatten := by
  induction script generalizing s with
  | nil =>
    refine ⟨hL, hlen, ?_⟩
    show s.keyword_buffer <:+ s.keyword_buffer ++ ([] : List (List Int)).flatten
    simp
  | cons ip rest ih =>
    obtain ⟨c, pd⟩ := ip
    obtain ⟨p, hpd, hlow⟩ := hscores (c, pd) (List.mem_cons_self _ _)
    simp only at hpd
    subst hpd
    have hrest : ∀ ip ∈ rest, ∃ q, ip.2 = Except.ok q ∧
        jarvisScore q < WAKE_WORD_CONFIDENCE_THRESHOLD :=
      fun ip h => hscores ip (List.mem_cons_of_mem _ h)
    rw [runFrames, handleFrame_listening_low rms c p s hL hlow]
    have hLt : ListeningState
        ({ s with
          keyword_buffer :=
            (if keywordBufferMaxLen < (s.keyword_buffer ++ c).length then
              (s.keyword_buffer ++ c).drop
                ((s.keyword_buffer ++ c).length - keywordBufferMaxLen)
            else s.keyword_buffer ++ c)
          wake_model_frames := s.wake_model_frames ++ [c] } : VAState) := hL
    have hlent :
        (({ s with
          keyword_buffer :=
            (if keywordBufferMaxLen < (s.keyword_buffer ++ c).length then
              (s.keyword_buffer ++ c).drop
                ((s.keyword_buffer ++ c).length - keywordBufferMaxLen)
            else s.keyword_buffer ++ c)
          wake_model_frames := s.wake_model_frames ++ [c] } : VAState)).keyword_buffer.length
          ≤ keywordBufferMaxLen := by
      show (if keywordBufferMaxLen < (s.keyword_buffer ++ c).length then
          (s.keyword_buffer ++ c).drop
            ((s.keyword_buffer ++ c).length - keywordBufferMaxLen)
        else s.keyword_buffer ++ c).length ≤ keywordBufferMaxLen
      split
      · next hgt => rw [List.length_drop]; omega
      · next hle => omega
    obtain ⟨ihL, ihlen, ihsuf⟩ := ih _ hLt hlent hrest
    refine ⟨ihL, ihlen, ?_⟩
    have h1 : (if keywordBufferMaxLen < (s.keyword_buffer ++ c).length then
          (s.keyword_buffer ++ c).drop
            ((s.keyword_buffer ++ c).length - keywordBufferMaxLen)
        else s.keyword_buffer ++ c) <:+ s.keyword_buffer ++ c := by
      split
      · exact List.drop_suffix _ _
      · exact List.suffix_refl _
    have h2 := isSuffix_append_same ((rest.map (fun ip => ip.1)).flatten) h1
    have h3 := ihsuf.trans h2
    simpa [List.append_assoc] using h3

/-- Witness for c3_listening_rolling: a one-frame script whose score 0.5
stays below the threshold, run from the initial state. -/
theorem c3_listening_rolling_witness :
    ListeningState (runFrames (fun _ => 0)
      [([1], Except.ok [("jarvis", (1 : Rat)/2)])] initState) ∧
    (runFrames (fun _ => 0)
      [([1], Except.ok [("jarvis", (1 : Rat)/2)])] initState).keyword_buffer.length
        ≤ keywordBufferMaxLen ∧
    (runFrames (fun _ => 0)
      [([1], Except.ok [("jarvis", (1 : Rat)/2)])] initState).keyword_buffer <:+
      initState.keyword_buffer ++
        (([([1], Except.ok [("jarvis", (1 : Rat)/2)])] :
          List (Frame × Except String (List (String × Rat)))).map
            (fun ip => ip.1)).flatten :=
  c3_listening_rolling (fun _ => 0) [([1], Except.ok [("jarvis", (1 : Rat)/2)])]
    initState ⟨rfl, rfl, rfl⟩ (by with_unfolding_all decide)
    (by
      intro ip hip
      rw [List.mem_singleton] at hip
      subst hip
      exact ⟨[("jarvis", (1 : Rat)/2)], rfl, by with_unfolding_all decide⟩)

/-- Claim C2: while RECORDING, the frame is appended to the recording
buffer; a silent frame increments the silence counter and a non-silent one
resets it to 0; exactly when the counter reaches SILENCE_DURATION_BLOCKS —
on the 25th consecutive silent frame — the machine transitions to
PROCESSING and spawns exactly one processing job; below the bound it stays
RECORDING with no spawn; and once PROCESSING, no further frame is ever
added to the recording buffer. -/
theorem c2_silence_counter (rms : Frame → Rat) (audio_chunk : Frame)
    (pred : Except String (List (String × Rat))) (s : VAState)
    (hrec : s.is_recording = true) (hproc : s.is_processing = false) :
    (handleFrame rms audio_chunk pred s).recording_buffer
        = s.recording_buffer ++ [audio_chunk] ∧
    ((detectSilence rms
        { s with recording_buffer := s.recording_buffer ++ [audio_chunk] }
        audio_chunk).1 = true →
      (handleFrame rms audio_chunk pred s).silence_counter = s.silence_counter + 1) ∧
    ((detectSilence rms
        { s with recording_buffer := s.recording_buffer ++ [audio_chunk] }
        audio_chunk).1 = false →
      (handleFrame rms audio_chunk pred s).silence_counter = 0) ∧
    ((detectSilence rms
        { s with recording_buffer := s.recording_buffer ++ [audio_chunk] }
        audio_chunk).1 = true →
      s.silence_counter + 1 < SILENCE_DURATION_BLOCKS →
      ((handleFrame rms audio_chunk pred s).is_recording = true ∧
        (handleFrame rms audio_chunk pred s).is_processing = false ∧
        (handleFrame rms audio_chunk pred s).spawned_jobs = s.spawned_jobs)) ∧
    ((detectSilence rms
        { s with recording_buffer := s.recording_buffer ++ [audio_chunk] }
        audio_chunk).1 = true →
      SILENCE_DURATION_BLOCKS ≤ s.silence_counter + 1 →
      ((handleFrame rms audio_chunk pred s).is_recording = false ∧
        (handleFrame rms audio_chunk pred s).is_processing = true ∧
        (handleFrame rms audio_chunk pred s).spawned_jobs = s.spawned_jobs + 1)) ∧
    (∀ u : VAState, u.is_processing = true →
      (handleFrame rms audio_chunk pred u).recording_buffer = u.recording_buffer) := by
  have hchar := handleFrame_recording rms audio_chunk pred s hrec hproc
  have hf := detectSilence_flags rms
    { s with recording_buffer := s.recording_buffer ++ [audio_chunk] } audio_chunk
  have hsc : (detectSilence rms
      { s with recording_buffer := s.recording_buffer ++ [audio_chunk] }
      audio_chunk).2.silence_counter = s.silence_counter := hf.2.2.2.1
  have hrb : (detectSilence rms
      { s with recording_buffer := s.recording_buffer ++ [audio_chunk] }
      audio_chunk).2.recording_buffer = s.recording_buffer ++ [audio_chunk] :=
    hf.2.2.2.2.1
  have hsj : (detectSilence rms
      { s with recording_buffer := s.recording_buffer ++ [audio_chunk] }
      audio_chunk).2.spawned_jobs = s.spawned_jobs := hf.2.2.2.2.2
  rw [hchar]
  simp only [hsc]
  by_cases hsil : (detectSilence rms
      { s with recording_buffer := s.recording_buffer ++ [audio_chunk] }
      audio_chunk).1 = true
  · rw [if_pos hsil]
    by_cases hstop : SILENCE_DURATION_BLOCKS ≤ s.silence_counter + 1
    · rw [if_pos hstop]
      exact ⟨hrb, fun _ => rfl, fun hfalse => absurd hsil (by simp [hfalse]),
        fun _ hlt => absurd hstop (by omega),
        fun _ _ => ⟨rfl, rfl, congrArg (fun n => n + 1) hsj⟩,
        fun u hu => by rw [handleFrame_processing rms audio_chunk pred u hu]⟩
    · rw [if_neg hstop]
      exact ⟨hrb, fun _ => rfl, fun hfalse => absurd hsil (by simp [hfalse]),
        fun _ _ => ⟨hf.2.1.trans hrec, hf.2.2.1.trans hproc, hsj⟩,
        fun _ hge => absurd hge hstop,
        fun u hu => by rw [handleFrame_processing rms audio_chunk pred u hu]⟩
  · have hsil' : (detectSilence rms
        { s with recording_buffer := s.recording_buffer ++ [audio_chunk] }
        audio_chunk).1 = false := by
      rcases Bool.eq_false_or_eq_true (detectSilence rms
        { s with recording_buffer := s.recording_buffer ++ [audio_chunk] }
        audio_chunk).1 with hb | hb
      · exact absurd hb hsil
      · exact hb
    rw [if_neg (by simp [hsil'])]
    exact ⟨hrb, fun htrue => absurd htrue hsil, fun _ => rfl,
      fun htrue _ => absurd htrue hsil, fun htrue _ => absurd htrue hsil,
      fun u hu => by rw [handleFrame_processing rms audio_chunk pred u hu]⟩

/-- Witness for c2_silence_counter: a recording state with 24 consecutive
silent frames counted, fed a 25th frame of RMS 0 (silent under any
positive threshold). -/
theorem c2_silence_counter_witness :
    (handleFrame (fun _ => 0) [0] (Except.ok []) recState24).recording_buffer
        = recState24.recording_buffer ++ [[0]] ∧
    ((detectSilence (fun _ => 0)
        { recState24 with recording_buffer := recState24.recording_buffer ++ [[0]] }
        [0]).1 = true →
      (handleFrame (fun _ => 0) [0] (Except.ok []) recState24).silence_counter
        = recState24.silence_counter + 1) ∧
    ((detectSilence (fun _ => 0)
        { recState24 with recording_buffer := recState24.recording_buffer ++ [[0]] }
        [0]).1 = false →
      (handleFrame (fun _ => 0) [0] (Except.ok []) recState24).silence_counter = 0) ∧
    ((detectSilence (fun _ => 0)
        { recState24 with recording_buffer := recState24.recording_buffer ++ [[0]] }
        [0]).1 = true →
      recState24.silence_counter + 1 < SILENCE_DURATION_BLOCKS →
      ((handleFrame (fun _ => 0) [0] (Except.ok []) recState24).is_recording = true ∧
        (handleFrame (fun _ => 0) [0] (Except.ok []) recState24).is_processing = false ∧
        (handleFrame (fun _ => 0) [0] (Except.ok []) recState24).spawned_jobs
          = recState24.spawned_jobs)) ∧
    ((detectSilence (fun _ => 0)
        { recState24 with recording_buffer := recState24.recording_buffer ++ [[0]] }
        [0]).1 = true →
      SILENCE_DURATION_BLOCKS ≤ recState24.silence_counter + 1 →
      ((handleFrame (fun _ => 0) [0] (Except.ok []) recState24).is_recording = false ∧
        (handleFrame (fun _ => 0) [0] (Except.ok []) recState24).is_processing = true ∧
        (handleFrame (fun _ => 0) [0] (Except.ok []) recState24).spawned_jobs
          = recState24.spawned_jobs + 1)) ∧
    (∀ u : VAState, u.is_processing = true →
      (handleFrame (fun _ => 0) [0] (Except.ok []) u).recording_buffer
        = u.recording_buffer) :=
  c2_silence_counter (fun _ => 0) [0] (Except.ok []) recState24 rfl rfl

/-- Claim C6: a predictor exception while handling a frame in LISTENING
lands in the consumer-loop except-clause, which performs the full state
reset back to LISTENING; the loop itself keeps consuming the rest of the
script; and nothing raised inside the processing pipeline escapes — for
every behavior of the external collaborators the pipeline ends in the
reset LISTENING state, the same place a clean completion ends. -/
theorem c6_exception_policy (rms : Frame → Rat) (audio_chunk c0 : Frame)
    (e : String) (p0 : Except String (List (String × Rat)))
    (s t u : VAState) (env : PipelineEnv)
    (script : List (Frame × Except String (List (String × Rat))))
    (hL : ListeningState s) :
    handleFrame rms audio_chunk (Except.error e) s = resetState s ∧
    (processRecording env t).1 = resetState t ∧
    ListeningState (processRecording env t).1 ∧
    runFrames rms ((c0, p0) :: script) u =
      runFrames rms script (handleFrame rms c0 p0 u) := by
  refine ⟨handleFrame_error_listening rms audio_chunk e s hL,
    processRecording_resets env t, ?_, rfl⟩
  rw [processRecording_resets env t]
  exact ⟨rfl, rfl, rfl⟩

/-- Witness for c6_exception_policy: a concrete exception in LISTENING, a
concrete PROCESSING state run through the pipeline with the concrete
environment, and a two-entry script. -/
theorem c6_exception_policy_witness :
    handleFrame (fun _ => 0) [1] (Except.error "boom") initState
        = resetState initState ∧
    (processRecording emptyTranscriberEnv
        (stopRecording (startRecording initState))).1 =
      resetState (stopRecording (startRecording initState)) ∧
    ListeningState (processRecording emptyTranscriberEnv
      (stopRecording (startRecording initState))).1 ∧
    runFrames (fun _ => 0) (([2], Except.error "x") :: []) initState =
      runFrames (fun _ => 0) []
        (handleFrame (fun _ => 0) [2] (Except.error "x") initState) :=
  c6_exception_policy (fun _ => 0) [1] [2] "boom" (Except.error "x") initState
    (stopRecording (startRecording initState)) initState emptyTranscriberEnv []
    ⟨rfl, rfl, rfl⟩

/-- Claim C7: the pipeline calls the transcriber only when the recording
buffer is non-empty — an empty buffer short-circuits straight to the reset
with no external call and no response — and when the transcription trims
to the empty string it short-circuits to the reset right after the
transcription call, with no routing and no spoken response. -/
theorem c7_pipeline_short_circuit (env : PipelineEnv) (s : VAState)
    (raw : String) :
    (s.recording_buffer = [] → processRecording env s = (resetState s, [])) ∧
    (s.recording_buffer ≠ [] →
      (processRecording env s).2.head? =
        some (Event.sttCall (normalizedSamples s.recording_buffer.flatten))) ∧
    (s.recording_buffer ≠ [] →
      env.transcribe (normalizedSamples s.recording_buffer.flatten)
        = Except.ok raw →
      raw.trim = "" →
      processRecording env s =
        (resetState s,
          [Event.sttCall (normalizedSamples s.recording_buffer.flatten)])) := by
  have hsnd : (processRecording env s).2 = (processRecordingBody env s).2 := rfl
  refine ⟨fun hemp => ?_, fun hne => ?_, fun hne htr htrim => ?_⟩
  · have hbody : processRecordingBody env s = (resetState s, []) := by
      unfold processRecordingBody
      rw [if_pos (by rw [hemp]; rfl)]
    rw [Prod.ext_iff]
    exact ⟨processRecording_resets env s, by rw [hsnd, hbody]⟩
  · have hne' : s.recording_buffer.isEmpty = false := by
      rcases hrb : s.recording_buffer with _ | ⟨a, l⟩
      · exact absurd hrb hne
      · rfl
    rw [hsnd]
    unfold processRecordingBody
    rw [if_neg (by simp [hne'])]
    rcases htr2 : env.transcribe (normalizedSamples s.recording_buffer.flatten)
      with err | raw2
    · simp only [htr2]
      rfl
    · simp only [htr2]
      by_cases htm : raw2.trim = ""
      · rw [if_pos htm]
        rfl
      · rw [if_neg htm]
        rfl
  · have hne' : s.recording_buffer.isEmpty = false := by
      rcases hrb : s.recording_buffer with _ | ⟨a, l⟩
      · exact absurd hrb hne
      · rfl
    have hbody : processRecordingBody env s =
        (resetState s,
          [Event.sttCall (normalizedSamples s.recording_buffer.flatten)]) := by
      unfold processRecordingBody
      rw [if_neg (by simp [hne'])]
      simp only [htr]
      rw [if_pos htrim]
    rw [Prod.ext_iff]
    exact ⟨processRecording_resets env s, by rw [hsnd, hbody]⟩

/-- Witness for c7_pipeline_short_circuit: a one-frame recording processed
with the environment whose transcriber returns the empty string. -/
theorem c7_pipeline_short_circuit_witness :
    processRecording emptyTranscriberEnv
        { initState with recording_buffer := [[4]] } =
      (resetState { initState with recording_buffer := [[4]] },
        [Event.sttCall (normalizedSamples
          (({ initState with recording_buffer := [[4]] } :
            VAState)).recording_buffer.flatten)]) :=
  (c7_pipeline_short_circuit emptyTranscriberEnv
      { initState with recording_buffer := [[4]] } "").2.2
    (by with_unfolding_all decide) rfl (by with_unfolding_all decide)

/-- Claim C9: exactly one of the three state booleans holds after
construction, after _start_recording from LISTENING, after _stop_recording
from RECORDING, after _reset_state from anywhere, after any consumer-loop
frame from any exclusive state, and after the processing pipeline. -/
theorem c9_tri_state (rms : Frame → Rat) (audio_chunk : Frame)
    (pred : Except String (List (String × Rat))) (env : PipelineEnv)
    (s t : VAState) (hx : triExclusive s = true) :
    triExclusive initState = true ∧
    (ListeningState t → triExclusive (startRecording t) = true) ∧
    (t.is_recording = true → t.is_listening = false →
      triExclusive (stopRecording t) = true) ∧
    triExclusive (resetState t) = true ∧
    triExclusive (handleFrame rms audio_chunk pred s) = true ∧
    triExclusive (processRecording env s).1 = true := by
  refine ⟨rfl, fun hLt => triExclusive_startRecording t hLt.2.2,
    fun _ hl => triExclusive_stopRecording t hl, triExclusive_resetState t,
    ?_, ?_⟩
  swap
  · rw [processRecording_resets env s]
    exact triExclusive_resetState s
  · simp only [triExclusive, Bool.or_eq_true, Bool.and_eq_true,
      Bool.not_eq_true'] at hx
    rcases hx with (⟨⟨hl, hr⟩, hp⟩ | ⟨⟨hl, hr⟩, hp⟩) | ⟨⟨hl, hr⟩, hp⟩
    · rcases pred with e | pl
      · rw [handleFrame_error_listening rms audio_chunk e s ⟨hl, hr, hp⟩]
        exact triExclusive_resetState s
      · by_cases hs : WAKE_WORD_CONFIDENCE_THRESHOLD ≤ jarvisScore pl
        · simp [handleFrame, hl, hr, hp, hs, startRecording, clearAudioBuffer,
            triExclusive]
        · rw [handleFrame_listening_low rms audio_chunk pl s ⟨hl, hr, hp⟩
            (not_le.mp hs)]
          simp [triExclusive, hl, hr, hp]
    · obtain ⟨hfl, hcase⟩ :=
        handleFrame_recording_flags rms audio_chunk pred s hr hp
      rcases hcase with ⟨h1, h2⟩ | ⟨h1, h2⟩ <;>
        simp [triExclusive, hfl, hl, h1, h2]
    · rw [handleFrame_processing rms audio_chunk pred s hp]
      simp [triExclusive, hl, hr, hp]

/-- Witness for c9_tri_state: all parts at the initial state (which is
itself exclusive) with concrete frame, predictor outcome and
environment. -/
theorem c9_tri_state_witness :
    triExclusive initState = true ∧
    (ListeningState initState → triExclusive (startRecording initState) = true) ∧
    (initState.is_recording = true → initState.is_listening = false →
      triExclusive (stopRecording initState) = true) ∧
    triExclusive (resetState initState) = true ∧
    triExclusive (handleFrame (fun _ => 0) [0] (Except.ok []) initState) = true ∧
    triExclusive (processRecording emptyTranscriberEnv initState).1 = true :=
  c9_tri_state (fun _ => 0) [0] (Except.ok []) emptyTranscriberEnv
    initState initState rfl

end Jarvis
